import Mathlib

/-!
# LegacyClonk: client identity records, client handles, the client list and the GTK key mask

A shallow embedding of the inline member functions of `src/C4Client.h` and of
`CStdGtkWindow::OnUpdateKeyMask` from `src/StdGtkWindow.cpp`.

Conventions of the embedding

* A C++ object is a Lean structure; a member function that mutates `*this` is a
  function returning the new object.
* `int32_t` and `time_t` values are `Int`; none of the embedded functions performs
  arithmetic on them, so no wrap-around can occur.
* `unsigned int` values are `Nat`; the only operations applied to them are the bitwise
  `&`, `|` and `^`, which never leave the range of their operands.
* A pointer is an `Option Nat` (an address, `none` for `nullptr`); the objects pointed to
  live in a heap `Nat → Option C4Client`, and reading through an address that holds no
  object has no result (`none`).
* The validated string buffers `Name` and `Nick` are modelled by their contents.
-/

namespace LegacyClonk

/-! ## Constants of `C4Client.h` -/

def C4ClientIDUnknown : Int := -1
def C4ClientIDHost : Int := 0
def C4ClientIDStart : Int := 1

def C4ClientCoreDL_None : Int := 0
def C4ClientCoreDL_IDMatch : Int := 1
def C4ClientCoreDL_IDChange : Int := 2
def C4ClientCoreDL_Different : Int := 3

/-! ## `C4ClientCore` -/

/-- The data members of `class C4ClientCore`. -/
structure C4ClientCore where
  iID : Int
  Name : String
  Nick : String
  iVersion : Int × Int × Int × Int
  fActivated : Bool
  fObserver : Bool
  fLobbyReady : Bool
  deriving DecidableEq, Repr

namespace C4ClientCore

def getID (c : C4ClientCore) : Int := c.iID
def isHost (c : C4ClientCore) : Bool := decide (c.iID = C4ClientIDHost)
def isActivated (c : C4ClientCore) : Bool := c.fActivated
def isObserver (c : C4ClientCore) : Bool := c.fObserver
def isLobbyReady (c : C4ClientCore) : Bool := c.fLobbyReady

/-- Source: `void SetID(int32_t inID) { iID = inID; }` -/
def SetID (c : C4ClientCore) (inID : Int) : C4ClientCore :=
  { c with iID := inID }

/-- Source: `void SetActivated(bool fnActivated) { fActivated = fnActivated; fObserver = false; }` -/
def SetActivated (c : C4ClientCore) (fnActivated : Bool) : C4ClientCore :=
  let c1 := { c with fActivated := fnActivated }
  { c1 with fObserver := false }

/-- Source: `void SetObserver(bool fnObserver) { fActivated &= !(fObserver = fnObserver); }`:
the inner assignment stores `fnObserver` in `fObserver` and has the stored value as its
value; its negation is then and-ed into `fActivated`. -/
def SetObserver (c : C4ClientCore) (fnObserver : Bool) : C4ClientCore :=
  let c1 := { c with fObserver := fnObserver }
  { c1 with fActivated := c1.fActivated && !c1.fObserver }

/-- Source: `void SetLobbyReady(bool fnLobbyReady) { fLobbyReady = fnLobbyReady; }` -/
def SetLobbyReady (c : C4ClientCore) (fnLobbyReady : Bool) : C4ClientCore :=
  { c with fLobbyReady := fnLobbyReady }

def getName (c : C4ClientCore) : String := c.Name
def getNick (c : C4ClientCore) : String := c.Nick

/-- The mutual exclusion of the two status flags: `activated ⇒ !observer`. -/
def Exclusive (c : C4ClientCore) : Prop :=
  c.fActivated = true → c.fObserver = false

instance (c : C4ClientCore) : Decidable (Exclusive c) := by
  unfold Exclusive; infer_instance

/-- Modelled from the spec: the body of `C4ClientCore::getDiffLevel`, which `C4Client.h`
only declares. The spec describes the four levels as
`None`: all fields equal;
`StatusMatch`: identity (id/name) equal, only status flags differ;
`IdentityChanged`: id equal but name/nickname differs;
`Different`: id differs, or more than identity changed.
The ladder below returns `Different` when the ids differ, `IDChange` when the ids agree
and the name or the nickname differs, `IDMatch` when only status flags differ and `None`
when all fields agree; a pair that agrees on id, name and nickname but not on the version
is none of the first three and is classified `Different`. -/
def getDiffLevel (c CCore2 : C4ClientCore) : Int :=
  if c.iID ≠ CCore2.iID then C4ClientCoreDL_Different
  else if c.Name ≠ CCore2.Name ∨ c.Nick ≠ CCore2.Nick then C4ClientCoreDL_IDChange
  else if c.iVersion ≠ CCore2.iVersion then C4ClientCoreDL_Different
  else if c.fActivated ≠ CCore2.fActivated ∨ c.fObserver ≠ CCore2.fObserver
      ∨ c.fLobbyReady ≠ CCore2.fLobbyReady then C4ClientCoreDL_IDMatch
  else C4ClientCoreDL_None

end C4ClientCore

/-! ## `C4Client` -/

/-- The data members of `class C4Client`. `pNetClient` and `pNext` are addresses. -/
structure C4Client where
  Core : C4ClientCore
  fLocal : Bool
  pNetClient : Option Nat
  last_lobby_ready_change : Int
  muted : Bool
  pNext : Option Nat
  deriving DecidableEq, Repr

namespace C4Client

def getCore (c : C4Client) : C4ClientCore := c.Core
def getID (c : C4Client) : Int := c.Core.getID
def isHost (c : C4Client) : Bool := c.Core.isHost
def getName (c : C4Client) : String := c.Core.getName
def getNick (c : C4Client) : String := c.Core.getNick
def isActivated (c : C4Client) : Bool := c.Core.isActivated
def isObserver (c : C4Client) : Bool := c.Core.isObserver
def isLobbyReady (c : C4Client) : Bool := c.Core.isLobbyReady
def isMuted (c : C4Client) : Bool := c.muted
def isLocal (c : C4Client) : Bool := c.fLocal
def getNetClient (c : C4Client) : Option Nat := c.pNetClient

/-- Source: `void SetCore(const C4ClientCore &NewCore) { Core = NewCore; }` -/
def SetCore (c : C4Client) (NewCore : C4ClientCore) : C4Client :=
  { c with Core := NewCore }

/-- Source: `void SetID(int32_t iID) { Core.SetID(iID); }` -/
def SetID (c : C4Client) (iID : Int) : C4Client :=
  { c with Core := c.Core.SetID iID }

/-- Source: `void SetObserver() { Core.SetObserver(true); }` -/
def SetObserver (c : C4Client) : C4Client :=
  { c with Core := c.Core.SetObserver true }

/-- Source: `void SetMuted(bool muted) { this->muted = muted; }` -/
def SetMuted (c : C4Client) (muted : Bool) : C4Client :=
  { c with muted := muted }

/-- Source: `void ToggleMuted() { muted = !muted; }` -/
def ToggleMuted (c : C4Client) : C4Client :=
  { c with muted := !c.muted }

/-- Source: `void UnlinkNetClient() { pNetClient = nullptr; }` -/
def UnlinkNetClient (c : C4Client) : C4Client :=
  { c with pNetClient := none }

end C4Client

/-! ## `C4ClientList` -/

/-- The objects of type `C4Client` in memory, by address. -/
abbrev ClientHeap := Nat → Option C4Client

/-- The data members of `class C4ClientList`; all three are addresses. -/
structure C4ClientList where
  pFirst : Option Nat
  pLocal : Option Nat
  pNetClients : Option Nat
  deriving DecidableEq, Repr

namespace C4ClientList

/-- Source: `C4Client *getLocal() const { return pLocal; }` -/
def getLocal (l : C4ClientList) : Option Nat := l.pLocal

/-- Source: `const C4ClientCore &getLocalCore() const { return getLocal()->getCore(); }`:
there is no result when `getLocal()` is null or points at no client. -/
def getLocalCore (heap : ClientHeap) (l : C4ClientList) : Option C4ClientCore :=
  match l.getLocal with
  | none => none
  | some p => (heap p).map C4Client.getCore

/-- Source: `const char *getLocalName() const { return pLocal ? getLocalCore().getName() : "???"; }` -/
def getLocalName (heap : ClientHeap) (l : C4ClientList) : Option String :=
  match l.pLocal with
  | some _ => (getLocalCore heap l).map C4ClientCore.getName
  | none => some "???"

/-- Source: `int32_t getLocalID() const { return pLocal ? getLocalCore().getID() : C4ClientIDUnknown; }` -/
def getLocalID (heap : ClientHeap) (l : C4ClientList) : Option Int :=
  match l.pLocal with
  | some _ => (getLocalCore heap l).map C4ClientCore.getID
  | none => some C4ClientIDUnknown

end C4ClientList

/-! ## `CStdGtkWindow::OnUpdateKeyMask` -/

/-- The modifier masks of `GdkModifierType` (GDK, `gdktypes.h`). -/
def GDK_SHIFT_MASK : Nat := 1 <<< 0
def GDK_CONTROL_MASK : Nat := 1 <<< 2
def GDK_MOD1_MASK : Nat := 1 <<< 3

/-- The key symbols of the modifier keys (GDK, `gdkkeysyms.h`). -/
def GDK_KEY_Shift_L : Nat := 0xffe1
def GDK_KEY_Shift_R : Nat := 0xffe2
def GDK_KEY_Control_L : Nat := 0xffe3
def GDK_KEY_Control_R : Nat := 0xffe4
def GDK_KEY_Alt_L : Nat := 0xffe9
def GDK_KEY_Alt_R : Nat := 0xffea

/-- The return value `FALSE` of a GTK signal handler. -/
def FALSE : Nat := 0

/-- The two members of `GdkEventKey` the handler reads. -/
structure GdkEventKey where
  state : Nat
  keyval : Nat
  deriving DecidableEq, Repr

/-- The member of `CStdApp` the handler writes. -/
structure CStdApp where
  KeyMask : Nat
  deriving DecidableEq, Repr

/-- One of the two propositions holds, but not both. -/
def ExactlyOne (p q : Prop) : Prop := (p ∧ ¬q) ∨ (¬p ∧ q)

instance (p q : Prop) [Decidable p] [Decidable q] : Decidable (ExactlyOne p q) := by
  unfold ExactlyOne; infer_instance

/-- The local variable `mask` of `OnUpdateKeyMask` after the three `|=` statements that
read `event->state`. `MK_SHIFT` and `MK_CONTROL` are macros of a header that is not part
of the embedded sources and are parameters here. -/
def maskBefore (MK_SHIFT MK_CONTROL : Nat) (event : GdkEventKey) : Nat :=
  let mask := 0
  let mask := if event.state &&& GDK_SHIFT_MASK ≠ 0 then mask ||| MK_SHIFT else mask
  let mask := if event.state &&& GDK_CONTROL_MASK ≠ 0 then mask ||| MK_CONTROL else mask
  let mask := if event.state &&& GDK_MOD1_MASK ≠ 0 then mask ||| (1 <<< 3) else mask
  mask

/-- The variable `mask` after the three `^=` statements that read `event->keyval`. -/
def maskAfter (MK_SHIFT MK_CONTROL : Nat) (event : GdkEventKey) : Nat :=
  let mask := maskBefore MK_SHIFT MK_CONTROL event
  let mask := if event.keyval = GDK_KEY_Shift_L ∨ event.keyval = GDK_KEY_Shift_R
    then mask ^^^ MK_SHIFT else mask
  let mask := if event.keyval = GDK_KEY_Control_L ∨ event.keyval = GDK_KEY_Control_R
    then mask ^^^ MK_CONTROL else mask
  let mask := if event.keyval = GDK_KEY_Alt_L ∨ event.keyval = GDK_KEY_Alt_R
    then mask ^^^ (1 <<< 3) else mask
  mask

/-- Source: `gboolean CStdGtkWindow::OnUpdateKeyMask(GtkWidget *, GdkEventKey *event, gpointer user_data)`:
the application object after the handler ran, and the value the handler returns. -/
def OnUpdateKeyMask (MK_SHIFT MK_CONTROL : Nat) (event : GdkEventKey) (app : CStdApp) :
    CStdApp × Nat :=
  ({ app with KeyMask := maskAfter MK_SHIFT MK_CONTROL event }, FALSE)

/-! ## Concrete objects used to instantiate the theorems -/

/-- An activated peer with id 1. -/
def bob : C4ClientCore :=
  { iID := 1, Name := "Bob", Nick := "Bob", iVersion := (4, 9, 10, 9),
    fActivated := true, fObserver := false, fLobbyReady := false }

/-- The handle of `bob`, linked to a network client and to a successor in the list. -/
def bobClient : C4Client :=
  { Core := bob, fLocal := true, pNetClient := some 40, last_lobby_ready_change := 0,
    muted := false, pNext := some 8 }

/-- A heap that holds `bobClient` at address 7 and nothing else. -/
def bobHeap : ClientHeap := fun p => if p = 7 then some bobClient else none

/-- A client list whose local client is the one at address 7. -/
def listWithLocal : C4ClientList := { pFirst := some 7, pLocal := some 7, pNetClients := none }

/-- A client list as it is while a record is played: there is no local client. -/
def listReplay : C4ClientList := { pFirst := some 7, pLocal := none, pNetClients := none }

/-- The event of pressing the left control key while shift is held. -/
def ctrlPressShiftHeld : GdkEventKey := { state := GDK_SHIFT_MASK, keyval := GDK_KEY_Control_L }

/-! ## Theorems about `C4ClientCore` -/

/-- C1: from any identity record, `SetActivated(true)` leaves `isActivated()` true and
`isObserver()` false, and `SetObserver(true)`, also when reached through
`C4Client::SetObserver()`, leaves `isObserver()` true and `isActivated()` false. -/
theorem C1_status_setters_true (c : C4ClientCore) (h : C4Client) :
    ((c.SetActivated true).isActivated = true ∧ (c.SetActivated true).isObserver = false) ∧
    ((c.SetObserver true).isObserver = true ∧ (c.SetObserver true).isActivated = false) ∧
    (h.SetObserver.isObserver = true ∧ h.SetObserver.isActivated = false) := by
  simp [C4ClientCore.SetActivated, C4ClientCore.SetObserver, C4ClientCore.isActivated,
    C4ClientCore.isObserver, C4Client.SetObserver, C4Client.isObserver, C4Client.isActivated]

/-- C2: `activated ⇒ !observer` is preserved by `SetID`, `SetActivated`, `SetObserver` and
`SetLobbyReady` for every argument, and `SetActivated` and `SetObserver` establish it
from every prior state, including one with both flags set. -/
theorem C2_exclusive_invariant (c : C4ClientCore) (i : Int) (b : Bool) :
    (c.Exclusive →
      (c.SetID i).Exclusive ∧ (c.SetActivated b).Exclusive ∧
      (c.SetObserver b).Exclusive ∧ (c.SetLobbyReady b).Exclusive) ∧
    (c.SetActivated b).Exclusive ∧ (c.SetObserver b).Exclusive := by
  cases b <;>
    simp [C4ClientCore.Exclusive, C4ClientCore.SetID, C4ClientCore.SetActivated,
      C4ClientCore.SetObserver, C4ClientCore.SetLobbyReady]

/-- C4: `SetActivated(b)` applied twice gives the same record as applied once, and so
does `SetObserver(b)`; every field of the record is compared. -/
theorem C4_status_setters_idempotent (c : C4ClientCore) (b : Bool) :
    (c.SetActivated b).SetActivated b = c.SetActivated b ∧
    (c.SetObserver b).SetObserver b = c.SetObserver b := by
  cases b <;> simp [C4ClientCore.SetActivated, C4ClientCore.SetObserver]

/-- C8: `SetActivated(false)` clears both `fActivated` and `fObserver`, while
`SetObserver(false)` clears `fObserver` and keeps `fActivated`; neither changes the id or
the lobby-ready flag. -/
theorem C8_setters_false_asymmetric (c : C4ClientCore) :
    ((c.SetActivated false).fActivated = false ∧ (c.SetActivated false).fObserver = false ∧
      (c.SetActivated false).iID = c.iID ∧
      (c.SetActivated false).fLobbyReady = c.fLobbyReady) ∧
    ((c.SetObserver false).fObserver = false ∧
      (c.SetObserver false).fActivated = c.fActivated ∧
      (c.SetObserver false).iID = c.iID ∧
      (c.SetObserver false).fLobbyReady = c.fLobbyReady) := by
  simp [C4ClientCore.SetActivated, C4ClientCore.SetObserver]

/-! ## Theorems about `C4Client` and `C4ClientList` -/

/-- C5: after `UnlinkNetClient()` the handle has no network client, whether one was linked
before or not; a second call gives the same handle as the first, and `Core`, `fLocal`,
`last_lobby_ready_change`, `muted` and `pNext` keep their values. -/
theorem C5_unlink_idempotent (c : C4Client) :
    c.UnlinkNetClient.getNetClient = none ∧
    c.UnlinkNetClient.UnlinkNetClient = c.UnlinkNetClient ∧
    c.UnlinkNetClient.Core = c.Core ∧ c.UnlinkNetClient.fLocal = c.fLocal ∧
    c.UnlinkNetClient.last_lobby_ready_change = c.last_lobby_ready_change ∧
    c.UnlinkNetClient.muted = c.muted ∧ c.UnlinkNetClient.pNext = c.pNext := by
  simp [C4Client.UnlinkNetClient, C4Client.getNetClient]

/-- C6: `SetMuted(b)` makes `isMuted()` equal `b`, `ToggleMuted()` makes it the negation of
its previous value, two toggles restore the handle, and both operations leave `getCore()`
and every field other than `muted` unchanged. -/
theorem C6_mute_local_only (c : C4Client) (b : Bool) :
    ((c.SetMuted b).isMuted = b ∧ (c.SetMuted b).getCore = c.getCore ∧
      (c.SetMuted b).fLocal = c.fLocal ∧ (c.SetMuted b).pNetClient = c.pNetClient ∧
      (c.SetMuted b).last_lobby_ready_change = c.last_lobby_ready_change ∧
      (c.SetMuted b).pNext = c.pNext) ∧
    (c.ToggleMuted.isMuted = !c.isMuted ∧ c.ToggleMuted.getCore = c.getCore ∧
      c.ToggleMuted.fLocal = c.fLocal ∧ c.ToggleMuted.pNetClient = c.pNetClient ∧
      c.ToggleMuted.last_lobby_ready_change = c.last_lobby_ready_change ∧
      c.ToggleMuted.pNext = c.pNext) ∧
    c.ToggleMuted.ToggleMuted = c := by
  simp [C4Client.SetMuted, C4Client.ToggleMuted, C4Client.isMuted, C4Client.getCore]

/-- C7: after `SetCore(n)` the handle reports `n` as its core, hence the id and the status
flags of `n`, while `isLocal()`, `getNetClient()`, `last_lobby_ready_change`, `isMuted()`
and `pNext` keep their values. -/
theorem C7_set_core_frame (c : C4Client) (n : C4ClientCore) :
    (c.SetCore n).getCore = n ∧
    ((c.SetCore n).getID = n.getID ∧ (c.SetCore n).isActivated = n.isActivated ∧
      (c.SetCore n).isObserver = n.isObserver ∧
      (c.SetCore n).isLobbyReady = n.isLobbyReady) ∧
    ((c.SetCore n).isLocal = c.isLocal ∧ (c.SetCore n).getNetClient = c.getNetClient ∧
      (c.SetCore n).last_lobby_ready_change = c.last_lobby_ready_change ∧
      (c.SetCore n).isMuted = c.isMuted ∧ (c.SetCore n).pNext = c.pNext) := by
  simp [C4Client.SetCore, C4Client.getCore, C4Client.getID, C4Client.isActivated,
    C4Client.isObserver, C4Client.isLobbyReady, C4Client.isLocal, C4Client.getNetClient,
    C4Client.isMuted]

/-- C3: two identity records whose ids differ are classified `C4ClientCoreDL_Different`
(3), whatever their names, nicknames, versions and status flags are. -/
theorem C3_diff_level_ids_differ (a b : C4ClientCore) (hid : a.iID ≠ b.iID) :
    a.getDiffLevel b = C4ClientCoreDL_Different ∧ a.getDiffLevel b = 3 := by
  simp [C4ClientCore.getDiffLevel, hid, C4ClientCoreDL_Different]

/-- C9: without a local client `getLocalID()` is `C4ClientIDUnknown` (-1) and
`getLocalName()` is the string of three question marks; with a local client they are the
id and the name of that client's core. -/
theorem C9_local_id_and_name (heap : ClientHeap) (l : C4ClientList) :
    (l.pLocal = none →
      l.getLocalID heap = some C4ClientIDUnknown ∧ l.getLocalID heap = some (-1) ∧
      l.getLocalName heap = some "???") ∧
    (∀ p client, l.pLocal = some p → heap p = some client →
      l.getLocalID heap = some client.getCore.getID ∧
      l.getLocalName heap = some client.getCore.getName) := by
  refine ⟨fun h => ?_, fun p client h hp => ?_⟩
  · simp [C4ClientList.getLocalID, C4ClientList.getLocalName, h, C4ClientIDUnknown]
  · simp [C4ClientList.getLocalID, C4ClientList.getLocalName, C4ClientList.getLocalCore,
      C4ClientList.getLocal, h, hp]

/-! ## Theorems about `OnUpdateKeyMask` -/

/-- Bit `n` of the stored mask, when the two macros are the single bits `i` and `j`. -/
theorem maskAfter_testBit (i j : Nat) (event : GdkEventKey) (n : Nat) :
    (maskAfter (2 ^ i) (2 ^ j) event).testBit n =
      (((((decide (event.state &&& GDK_SHIFT_MASK ≠ 0) && decide (i = n)) ||
          (decide (event.state &&& GDK_CONTROL_MASK ≠ 0) && decide (j = n)) ||
          (decide (event.state &&& GDK_MOD1_MASK ≠ 0) && decide (3 = n))) !=
        (decide (event.keyval = GDK_KEY_Shift_L ∨ event.keyval = GDK_KEY_Shift_R) &&
          decide (i = n))) !=
        (decide (event.keyval = GDK_KEY_Control_L ∨ event.keyval = GDK_KEY_Control_R) &&
          decide (j = n))) !=
        (decide (event.keyval = GDK_KEY_Alt_L ∨ event.keyval = GDK_KEY_Alt_R) &&
          decide (3 = n))) := by
  have h8 : ∀ m : Nat, Nat.testBit 8 m = decide (3 = m) := fun m =>
    @Nat.testBit_two_pow 3 m
  unfold maskAfter maskBefore
  split_ifs <;> simp_all [Nat.testBit_two_pow]

/-- The stored mask fits an `unsigned int` when the two macros are bits below 32. -/
theorem maskAfter_lt (i j : Nat) (hi : i < 32) (hj : j < 32) (event : GdkEventKey) :
    maskAfter (2 ^ i) (2 ^ j) event < 2 ^ 32 := by
  apply Nat.lt_pow_two_of_testBit
  intro n hn
  have h1 : i ≠ n := by omega
  have h2 : j ≠ n := by omega
  have h3 : 3 ≠ n := by omega
  simp [maskAfter_testBit, h1, h2, h3]

/-- C10: with `MK_SHIFT`, `MK_CONTROL` and `1 << 3` three distinct single bits (bits `i`,
`j` and 3), the `KeyMask` stored by `OnUpdateKeyMask` has bit `i` set exactly when one
but not both of "the state has `GDK_SHIFT_MASK`" and "the key is `Shift_L` or `Shift_R`"
holds, bit `j` likewise for control and bit 3 likewise for `GDK_MOD1_MASK` and the Alt
keys; every other bit is clear, and the handler returns `FALSE`. -/
theorem C10_key_mask_after_event (i j : Nat) (hij : i ≠ j) (hi : i ≠ 3) (hj : j ≠ 3)
    (event : GdkEventKey) (app : CStdApp) :
    ((OnUpdateKeyMask (2 ^ i) (2 ^ j) event app).1.KeyMask.testBit i = true ↔
      ExactlyOne (event.state &&& GDK_SHIFT_MASK ≠ 0)
        (event.keyval = GDK_KEY_Shift_L ∨ event.keyval = GDK_KEY_Shift_R)) ∧
    ((OnUpdateKeyMask (2 ^ i) (2 ^ j) event app).1.KeyMask.testBit j = true ↔
      ExactlyOne (event.state &&& GDK_CONTROL_MASK ≠ 0)
        (event.keyval = GDK_KEY_Control_L ∨ event.keyval = GDK_KEY_Control_R)) ∧
    ((OnUpdateKeyMask (2 ^ i) (2 ^ j) event app).1.KeyMask.testBit 3 = true ↔
      ExactlyOne (event.state &&& GDK_MOD1_MASK ≠ 0)
        (event.keyval = GDK_KEY_Alt_L ∨ event.keyval = GDK_KEY_Alt_R)) ∧
    (∀ n, n ≠ i → n ≠ j → n ≠ 3 →
      (OnUpdateKeyMask (2 ^ i) (2 ^ j) event app).1.KeyMask.testBit n = false) ∧
    (OnUpdateKeyMask (2 ^ i) (2 ^ j) event app).2 = FALSE := by
  have hji : j ≠ i := fun h => hij h.symm
  have h3i : 3 ≠ i := fun h => hi h.symm
  have h3j : 3 ≠ j := fun h => hj h.symm
  refine ⟨?_, ?_, ?_, ?_, rfl⟩
  · simp only [OnUpdateKeyMask, maskAfter_testBit, ExactlyOne]
    by_cases hs : event.state &&& GDK_SHIFT_MASK = 0 <;>
      by_cases hk : event.keyval = GDK_KEY_Shift_L ∨ event.keyval = GDK_KEY_Shift_R <;>
      simp [hs, hk, hji, h3i]
  · simp only [OnUpdateKeyMask, maskAfter_testBit, ExactlyOne]
    by_cases hs : event.state &&& GDK_CONTROL_MASK = 0 <;>
      by_cases hk : event.keyval = GDK_KEY_Control_L ∨ event.keyval = GDK_KEY_Control_R <;>
      simp [hs, hk, hij, h3j]
  · simp only [OnUpdateKeyMask, maskAfter_testBit, ExactlyOne]
    by_cases hs : event.state &&& GDK_MOD1_MASK = 0 <;>
      by_cases hk : event.keyval = GDK_KEY_Alt_L ∨ event.keyval = GDK_KEY_Alt_R <;>
      simp [hs, hk, hi, hj]
  · intro n hni hnj hn3
    have h1 : i ≠ n := fun h => hni h.symm
    have h2 : j ≠ n := fun h => hnj h.symm
    have h3 : 3 ≠ n := fun h => hn3 h.symm
    simp [OnUpdateKeyMask, maskAfter_testBit, h1, h2, h3]

/-! ## The theorems at concrete inputs -/

/-- C2 at `bob`, whose flags satisfy the exclusion. -/
theorem C2_exclusive_invariant_witness :
    bob.Exclusive ∧
    ((bob.SetID 5).Exclusive ∧ (bob.SetActivated true).Exclusive ∧
      (bob.SetObserver true).Exclusive ∧ (bob.SetLobbyReady true).Exclusive) :=
  ⟨by decide, (C2_exclusive_invariant bob 5 true).1 (by decide)⟩

/-- C3 at `bob` and a copy of `bob` with id 2. -/
theorem C3_diff_level_ids_differ_witness :
    bob.iID ≠ (bob.SetID 2).iID ∧
    (bob.getDiffLevel (bob.SetID 2) = C4ClientCoreDL_Different ∧
      bob.getDiffLevel (bob.SetID 2) = 3) :=
  ⟨by decide, C3_diff_level_ids_differ bob (bob.SetID 2) (by decide)⟩

/-- C9 at a list without and a list with a local client. -/
theorem C9_local_id_and_name_witness :
    (listReplay.pLocal = none ∧
      listReplay.getLocalID bobHeap = some (-1) ∧
      listReplay.getLocalName bobHeap = some "???") ∧
    (listWithLocal.pLocal = some 7 ∧ bobHeap 7 = some bobClient ∧
      listWithLocal.getLocalID bobHeap = some bobClient.getCore.getID ∧
      listWithLocal.getLocalName bobHeap = some bobClient.getCore.getName) :=
  ⟨⟨rfl, ((C9_local_id_and_name bobHeap listReplay).1 rfl).2⟩,
    ⟨rfl, rfl, (C9_local_id_and_name bobHeap listWithLocal).2 7 bobClient rfl rfl⟩⟩

/-- C10 with `MK_SHIFT` bit 0 and `MK_CONTROL` bit 2, at the press of the left control
key while shift is held: the shift and control bits are set and no other bit is. -/
theorem C10_key_mask_after_event_witness :
    ((0 : Nat) ≠ 2 ∧ (0 : Nat) ≠ 3 ∧ (2 : Nat) ≠ 3) ∧
    (((OnUpdateKeyMask (2 ^ 0) (2 ^ 2) ctrlPressShiftHeld ⟨0⟩).1.KeyMask.testBit 0 = true ↔
      ExactlyOne (ctrlPressShiftHeld.state &&& GDK_SHIFT_MASK ≠ 0)
        (ctrlPressShiftHeld.keyval = GDK_KEY_Shift_L ∨
          ctrlPressShiftHeld.keyval = GDK_KEY_Shift_R)) ∧
    ((OnUpdateKeyMask (2 ^ 0) (2 ^ 2) ctrlPressShiftHeld ⟨0⟩).1.KeyMask.testBit 2 = true ↔
      ExactlyOne (ctrlPressShiftHeld.state &&& GDK_CONTROL_MASK ≠ 0)
        (ctrlPressShiftHeld.keyval = GDK_KEY_Control_L ∨
          ctrlPressShiftHeld.keyval = GDK_KEY_Control_R)) ∧
    ((OnUpdateKeyMask (2 ^ 0) (2 ^ 2) ctrlPressShiftHeld ⟨0⟩).1.KeyMask.testBit 3 = true ↔
      ExactlyOne (ctrlPressShiftHeld.state &&& GDK_MOD1_MASK ≠ 0)
        (ctrlPressShiftHeld.keyval = GDK_KEY_Alt_L ∨
          ctrlPressShiftHeld.keyval = GDK_KEY_Alt_R)) ∧
    (∀ n, n ≠ 0 → n ≠ 2 → n ≠ 3 →
      (OnUpdateKeyMask (2 ^ 0) (2 ^ 2) ctrlPressShiftHeld ⟨0⟩).1.KeyMask.testBit n = false) ∧
    (OnUpdateKeyMask (2 ^ 0) (2 ^ 2) ctrlPressShiftHeld ⟨0⟩).2 = FALSE) :=
  ⟨by decide,
    C10_key_mask_after_event 0 2 (by decide) (by decide) (by decide)
      ctrlPressShiftHeld ⟨0⟩⟩

/-- The mask stored at that event is 5: shift (1) and control (4). -/
theorem keyMask_ctrlPressShiftHeld :
    (OnUpdateKeyMask (2 ^ 0) (2 ^ 2) ctrlPressShiftHeld ⟨0⟩).1.KeyMask = 5 := by
  decide

/-- Releasing the left shift key while it is the only modifier held stores mask 0. -/
theorem keyMask_shiftRelease :
    (OnUpdateKeyMask (2 ^ 0) (2 ^ 2) ⟨GDK_SHIFT_MASK, GDK_KEY_Shift_L⟩ ⟨5⟩).1.KeyMask = 0 := by
  decide

/-- The two status setters on a record with both flags set. -/
theorem setters_on_both_flags :
    ({ bob with fObserver := true }.SetObserver false).fActivated = true ∧
    ({ bob with fObserver := true }.SetObserver false).fObserver = false ∧
    ({ bob with fObserver := true }.SetActivated false).fActivated = false ∧
    ({ bob with fObserver := true }.SetActivated false).fObserver = false := by
  decide

end LegacyClonk
